import Mathlib

/-!
Verification of the FreeCAD FEM Magnetodynamics2D Elmer writer
(`src/Mod/Fem/femsolver/elmer/equations/magnetodynamic2D_writer.py`).

The Python class `MgDyn2Dwriter` is embedded shallowly: every handler is a
pure Lean function threading an explicit sink state (the ordered directive
writes plus the set of constraints marked consumed) and returning the first
validation error, if any, as an `Option Error`.  Magnitudes that the Python
code receives from the external unit converter (`getFromUi`, `convert`,
`getValueAs`) are taken as rational inputs; Python's `round(x, n)` is
modelled as round-half-to-even at `n` decimal digits on rationals.
-/

namespace MgDyn2D

/-- A directive value: boolean, number, string, or file-procedure reference. -/
inductive Value : Type
  | bool (b : Bool)
  | num (q : ℚ)
  | str (s : String)
  | fileAttr (s : String)
deriving DecidableEq, Repr

/-- A single write performed through the external writer: a directive into a
section group keyed by a body name, in one of the section kinds used by this
file. -/
inductive Write : Type
  | material (body key : String) (v : Value)
  | bodyForce (body key : String) (v : Value)
  | boundary (body key : String) (v : Value)
  | equation (body key : String) (v : Value)
deriving DecidableEq, Repr

/-- The validation errors (`WriteError` messages) this file can raise,
distinguished by site. -/
inductive Error : Type
  | unassignedBody (name : String)
  | missingConductivity
  | missingPermeability
  | missingSource
  | ambiguousSource
  | zeroSource
  | zeroFrequency
deriving DecidableEq, Repr

/-- The accumulated output state: ordered directive writes, plus the ids of
constraints marked as handled. -/
structure Sink : Type where
  writes : List Write
  handled : List ℕ
deriving DecidableEq, Repr

/-- Append one directive write. -/
def Sink.write (s : Sink) (w : Write) : Sink :=
  { s with writes := s.writes ++ [w] }

/-- Modelled from the spec: `markHandled(constraintObject)` (the external
writer's `self.write.handled`, whose implementation is outside this source
file) records that a constraint has been consumed; marking is idempotent —
consuming twice is not an error and adds nothing. -/
def markHandled (id : ℕ) (s : Sink) : Sink :=
  if id ∈ s.handled then s else { s with handled := s.handled ++ [id] }

/-- Round a rational to the nearest integer, ties to even
(Python's `round` tie-breaking). -/
def pyRoundInt (x : ℚ) : ℤ :=
  let f := ⌊x⌋
  let r := x - f
  if r < 1/2 then f
  else if 1/2 < r then f + 1
  else if f % 2 = 0 then f else f + 1

/-- Python's `round(x, n)`: round to `n` decimal digits. -/
def pyRound (x : ℚ) (n : ℕ) : ℚ :=
  (pyRoundInt (x * 10 ^ n) : ℚ) / 10 ^ n

/-- Run a body `f` over a list, threading the sink; the first error aborts
the loop, keeping the sink written so far (a `for` loop whose body may raise). -/
def runWrites {α : Type} (f : α → Sink → Sink × Option Error) :
    List α → Sink → Sink × Option Error
  | [], s => (s, none)
  | a :: as, s =>
    match f a s with
    | (s', none) => runWrites f as s'
    | (s', some e) => (s', some e)

/-- A `Fem::ConstraintCurrentDensity` object: an id (for handled-marking), its
`References` (each entry keeps only the name list, i.e. Python's
`References[i][1]`), and the magnitude `getFromUi` returns for
`CurrentDensity` in `A/m^2`. -/
structure CurrentDensityConstraint : Type where
  id : ℕ
  references : List (List String)
  currentDensity : ℚ
deriving DecidableEq, Repr

/-- `_outputMagnetodynamic2DBodyForce` (lines 149–157): round the magnitude to
10 decimals, reject an exact zero, otherwise write `Current Density` into the
body-force group of `name`. -/
def outputBodyForce (obj : CurrentDensityConstraint) (name : String)
    (s : Sink) : Sink × Option Error :=
  let currentDensity := pyRound obj.currentDensity 10
  if currentDensity = 0 then (s, some Error.zeroSource)
  else (s.write (Write.bodyForce name "Current Density" (Value.num currentDensity)), none)

/-- One iteration of the `for obj in currentDensities` loop of
`handleMagnetodynamic2DBodyForces` (lines 165–181); `total` is
`len(currentDensities)` of the enclosing call.  A referenced constraint is
marked handled both at line 169 and at line 181; the unreferenced broadcast
branch marks only at line 181. -/
def processCurrentDensity (total : ℕ) (bodies : List String)
    (obj : CurrentDensityConstraint) (s : Sink) : Sink × Option Error :=
  match obj.references with
  | r :: _ =>
    match runWrites (outputBodyForce obj) r s with
    | (s', none) => (markHandled obj.id (markHandled obj.id s'), none)
    | (s', some e) => (s', some e)
  | [] =>
    if total = 1 then
      match runWrites (outputBodyForce obj) bodies s with
      | (s', none) => (markHandled obj.id s', none)
      | (s', some e) => (s', some e)
    else (s, some Error.ambiguousSource)

/-- `handleMagnetodynamic2DBodyForces` (lines 159–181): `currentDensities` is
the model's list of `Fem::ConstraintCurrentDensity` members. -/
def handleMagnetodynamic2DBodyForces (currentDensities : List CurrentDensityConstraint)
    (bodies : List String) (s : Sink) : Sink × Option Error :=
  if currentDensities.length = 0 then (s, some Error.missingSource)
  else runWrites (processCurrentDensity currentDensities.length bodies) currentDensities s

/-- The dictionary `obj.Material` of an `App::MaterialObject`, keeping the
fields this writer reads.  `electricalConductivity` holds the value
`convert(m["ElectricalConductivity"], "T^3*I^2/(L^3*M)")` returns when the key
is present; `relativePermeability` and `relativePermittivity` hold the
`float(...)` of the respective entries when present. -/
structure MaterialRecord : Type where
  name : String
  electricalConductivity : Option ℚ
  relativePermeability : Option ℚ
  relativePermittivity : Option ℚ
deriving DecidableEq, Repr

/-- An `App::MaterialObject` member: its `References` (name lists) and its
`Material` dictionary. -/
structure MaterialObject : Type where
  references : List (List String)
  material : MaterialRecord
deriving DecidableEq, Repr

/-- The body of the inner `for name in (n for n in refs if n in bodies)` loop
of `handleMagnetodynamic2DMaterial` (lines 121–147): check the two required
properties, then write `Name`, the converted and 10-decimal-rounded
`Electric Conductivity`, `Relative Permeability`, and — when present —
`Relative Permittivity` into the material group of `name`. -/
def outputMaterial (m : MaterialRecord) (name : String) (s : Sink) :
    Sink × Option Error :=
  match m.electricalConductivity with
  | none => (s, some Error.missingConductivity)
  | some ec =>
    match m.relativePermeability with
    | none => (s, some Error.missingPermeability)
    | some rp =>
      let s := s.write (Write.material name "Name" (Value.str m.name))
      let conductivity := pyRound ec 10
      let s := s.write (Write.material name "Electric Conductivity" (Value.num conductivity))
      let s := s.write (Write.material name "Relative Permeability" (Value.num rp))
      let s :=
        match m.relativePermittivity with
        | some rpt => s.write (Write.material name "Relative Permittivity" (Value.num rpt))
        | none => s
      (s, none)

/-- One iteration of the `for obj in self.write.getMember("App::MaterialObject")`
loop (lines 114–147): `refs` is `obj.References[0][1]` when `References` is
non-empty, else `getAllBodies()`; the material output runs over the names of
`refs` that are in `bodies`. -/
def processMaterialObject (allBodies bodies : List String) (obj : MaterialObject)
    (s : Sink) : Sink × Option Error :=
  let refs :=
    match obj.references with
    | r :: _ => r
    | [] => allBodies
  runWrites (outputMaterial obj.material) (refs.filter (fun n => n ∈ bodies)) s

/-- The initial `for name in bodies` check of `handleMagnetodynamic2DMaterial`
(lines 109–113): the first body whose `getBodyMaterial` lookup is `None`
raises, naming that body. -/
def checkBodiesHaveMaterial (getBodyMaterial : String → Option String) :
    List String → Option Error
  | [] => none
  | n :: ns =>
    if getBodyMaterial n = none then some (Error.unassignedBody n)
    else checkBodiesHaveMaterial getBodyMaterial ns

/-- `handleMagnetodynamic2DMaterial` (lines 107–147): `getBodyMaterial` and
`allBodies` stand for the external writer's lookups, `materialObjects` for
`getMember("App::MaterialObject")`. -/
def handleMagnetodynamic2DMaterial (getBodyMaterial : String → Option String)
    (allBodies : List String) (materialObjects : List MaterialObject)
    (bodies : List String) (s : Sink) : Sink × Option Error :=
  match checkBodiesHaveMaterial getBodyMaterial bodies with
  | some e => (s, some e)
  | none => runWrites (processMaterialObject allBodies bodies) materialObjects s

/-- A `Fem::ConstraintElectrostaticPotential` object: id, `References` (name
lists), `Label`, the `PotentialEnabled` flag, the `Potential` value in volts
when the attribute exists, and the `ElectricInfinity` flag. -/
structure PotentialConstraint : Type where
  id : ℕ
  references : List (List String)
  label : String
  potentialEnabled : Bool
  potential : Option ℚ
  electricInfinity : Bool
deriving DecidableEq, Repr

/-- The body of the inner `for name in obj.References[0][1]` loop of
`handleMagnetodynamic2DBndConditions` (lines 186–195): comment directive for a
non-empty label, `Potential` when enabled and the attribute exists,
`Infinity BC = true` when the infinity flag is set. -/
def outputBoundary (obj : PotentialConstraint) (name : String) (s : Sink) : Sink :=
  let s :=
    if obj.label ≠ "" then
      s.write (Write.boundary name "! FreeCAD Name" (Value.str obj.label))
    else s
  let s :=
    if obj.potentialEnabled then
      match obj.potential with
      | some p => s.write (Write.boundary name "Potential" (Value.num p))
      | none => s
    else s
  if obj.electricInfinity then
    s.write (Write.boundary name "Infinity BC" (Value.bool true))
  else s

/-- One iteration of the `for obj in getMember("Fem::ConstraintElectrostaticPotential")`
loop (lines 184–196): a constraint without references is skipped entirely;
otherwise every referenced name is output and the constraint is marked
handled. -/
def processBndCondition (obj : PotentialConstraint) (s : Sink) : Sink :=
  match obj.references with
  | r :: _ => markHandled obj.id (r.foldl (fun acc name => outputBoundary obj name acc) s)
  | [] => s

/-- `handleMagnetodynamic2DBndConditions` (lines 183–196). -/
def handleMagnetodynamic2DBndConditions (objs : List PotentialConstraint)
    (s : Sink) : Sink :=
  objs.foldl (fun acc obj => processBndCondition obj acc) s

/-- The equation object's fields this writer reads: `Name`, `IsHarmonic`,
`AngularFrequency` (as the numeric value `Units.Quantity(...).Value`),
`Stabilize`, and the boolean post-processing calculation flags. -/
structure Equation : Type where
  name : String
  isHarmonic : Bool
  angularFrequency : ℚ
  stabilize : Bool
  calculateCurrentDensity : Bool
  calculateElectricField : Bool
  calculateElementalFields : Bool
  calculateHarmonicLoss : Bool
  calculateJouleHeating : Bool
  calculateMagneticFieldStrength : Bool
  calculateMaxwellStress : Bool
  calculateNodalFields : Bool
  calculateNodalForces : Bool
  calculateNodalHeating : Bool
deriving DecidableEq, Repr

/-- `handleMagnetodynamic2DEquation` (lines 198–206): per body, reject a
harmonic equation with zero angular frequency, otherwise write `Name` and the
numeric `Angular Frequency` into the equation group of that body. -/
def handleMagnetodynamic2DEquation (bodies : List String) (equation : Equation)
    (s : Sink) : Sink × Option Error :=
  runWrites
    (fun b s =>
      if equation.isHarmonic = true ∧ equation.angularFrequency = 0 then
        (s, some Error.zeroFrequency)
      else
        let s := s.write (Write.equation b "Name" (Value.str equation.name))
        (s.write (Write.equation b "Angular Frequency" (Value.num equation.angularFrequency)),
          none))
    bodies s

/-- `getMagnetodynamic2DSolverPost` (lines 59–90) viewed as the sequence of
key-value assignments it performs on the solver section: `base` is the
section `createNonlinearSolver` (external) returns, and each `s[k] = v` of the
Python body appends `(k, v)`. -/
def getMagnetodynamic2DSolverPost (base : List (String × Value)) (equation : Equation) :
    List (String × Value) :=
  let s := base ++
    [("Equation", Value.str "MgDyn2DPost"),
     ("Exec Solver", Value.str "Always"),
     ("Procedure", Value.fileAttr "MagnetoDynamics/MagnetoDynamicsCalcFields")]
  let s :=
    if equation.isHarmonic = true then
      s ++ [("Angular Frequency", Value.num equation.angularFrequency)]
    else s
  let s := s ++ [("Potential Variable", Value.str "Potential")]
  let s :=
    if equation.calculateCurrentDensity = true then
      s ++ [("Calculate Current Density", Value.bool true)]
    else s
  let s :=
    if equation.calculateElectricField = true then
      s ++ [("Calculate Electric Field", Value.bool true)]
    else s
  let s :=
    if equation.calculateElementalFields = false then
      s ++ [("Calculate Elemental Fields", Value.bool false)]
    else s
  let s :=
    if equation.calculateHarmonicLoss = true then
      s ++ [("Calculate Harmonic Loss", Value.bool true)]
    else s
  let s :=
    if equation.calculateJouleHeating = true then
      s ++ [("Calculate Joule Heating", Value.bool true)]
    else s
  let s :=
    if equation.calculateMagneticFieldStrength = true then
      s ++ [("Calculate Magnetic Field Strength", Value.bool true)]
    else s
  let s :=
    if equation.calculateMaxwellStress = true then
      s ++ [("Calculate Maxwell Stress", Value.bool true)]
    else s
  let s :=
    if equation.calculateNodalFields = false then
      s ++ [("Calculate Nodal Fields", Value.bool false)]
    else s
  let s :=
    if equation.calculateNodalForces = true then
      s ++ [("Calculate Nodal Forces", Value.bool true)]
    else s
  let s :=
    if equation.calculateNodalHeating = true then
      s ++ [("Calculate Nodal Heating", Value.bool true)]
    else s
  s ++ [("Optimize Bandwidth", Value.bool true), ("Stabilize", Value.bool equation.stabilize)]

/-- The ten boolean calculation-flag directive keys of the post solver. -/
def postCalcKeys : List String :=
  ["Calculate Current Density", "Calculate Electric Field",
   "Calculate Elemental Fields", "Calculate Harmonic Loss",
   "Calculate Joule Heating", "Calculate Magnetic Field Strength",
   "Calculate Maxwell Stress", "Calculate Nodal Fields",
   "Calculate Nodal Forces", "Calculate Nodal Heating"]

/-! ### Basic sink lemmas -/

theorem Sink.write_writes (s : Sink) (w : Write) :
    (s.write w).writes = s.writes ++ [w] := rfl

theorem Sink.write_handled (s : Sink) (w : Write) :
    (s.write w).handled = s.handled := rfl

theorem markHandled_writes (id : ℕ) (s : Sink) :
    (markHandled id s).writes = s.writes := by
  unfold markHandled; split <;> rfl

theorem markHandled_handled_mem (id : ℕ) (s : Sink) :
    id ∈ (markHandled id s).handled := by
  unfold markHandled; split <;> simp_all

theorem markHandled_handled_mono {x : ℕ} (id : ℕ) (s : Sink) (h : x ∈ s.handled) :
    x ∈ (markHandled id s).handled := by
  unfold markHandled; split <;> simp_all

theorem markHandled_idem (id : ℕ) (s : Sink) :
    markHandled id (markHandled id s) = markHandled id s := by
  by_cases h : id ∈ s.handled <;> simp [markHandled, h]

/-! ### `runWrites` lemmas -/

theorem runWrites_nil {α : Type} (f : α → Sink → Sink × Option Error) (s : Sink) :
    runWrites f [] s = (s, none) := rfl

theorem runWrites_cons {α : Type} (f : α → Sink → Sink × Option Error)
    (a : α) (as : List α) (s : Sink) :
    runWrites f (a :: as) s =
      match f a s with
      | (s', none) => runWrites f as s'
      | (s', some e) => (s', some e) := rfl

theorem runWrites_pure {α : Type} (f : α → Sink → Sink × Option Error)
    (g : α → List Write)
    (hf : ∀ a s, f a s = ({ s with writes := s.writes ++ g a }, none)) :
    ∀ (as : List α) (s : Sink),
      runWrites f as s = ({ s with writes := s.writes ++ as.flatMap g }, none) := by
  intro as
  induction as with
  | nil => intro s; simp [runWrites]
  | cons a as ih =>
    intro s
    rw [runWrites, hf]
    simp only [ih, List.flatMap_cons, List.append_assoc]

theorem runWrites_ne_error {α : Type} (f : α → Sink → Sink × Option Error)
    (e : Error) (hf : ∀ a s, (f a s).2 ≠ some e) :
    ∀ (as : List α) (s : Sink), (runWrites f as s).2 ≠ some e := by
  intro as
  induction as with
  | nil => intro s; simp [runWrites]
  | cons a as ih =>
    intro s
    rw [runWrites]
    cases h : f a s with
    | mk s' o =>
      cases o with
      | none => exact ih s'
      | some e' =>
        intro hc
        exact hf a s (by rw [h]; simpa using hc)

theorem runWrites_fails {α : Type} (f : α → Sink → Sink × Option Error)
    (a : α) (ha : ∀ s, ((f a s).2).isSome) :
    ∀ (as : List α) (s : Sink), a ∈ as → ((runWrites f as s).2).isSome := by
  intro as
  induction as with
  | nil => intro s h; simp at h
  | cons b bs ih =>
    intro s hmem
    rw [runWrites]
    cases h : f b s with
    | mk s' o =>
      cases o with
      | none =>
        rcases List.mem_cons.mp hmem with h1 | h1
        · subst h1
          have := ha s
          rw [h] at this
          simp at this
        · exact ih s' h1
      | some e => simp

theorem runWrites_handled_eq {α : Type} (f : α → Sink → Sink × Option Error)
    (hf : ∀ a s, ((f a s).1).handled = s.handled) :
    ∀ (as : List α) (s : Sink), ((runWrites f as s).1).handled = s.handled := by
  intro as
  induction as with
  | nil => intro s; simp [runWrites]
  | cons a as ih =>
    intro s
    rw [runWrites]
    cases h : f a s with
    | mk s' o =>
      have hs' : s'.handled = s.handled := by
        have := hf a s
        rw [h] at this
        exact this
      cases o with
      | none => rw [ih s', hs']
      | some e => exact hs'

theorem runWrites_handled_mono {α : Type} (f : α → Sink → Sink × Option Error)
    (hf : ∀ a s x, x ∈ s.handled → x ∈ ((f a s).1).handled) :
    ∀ (as : List α) (s : Sink) (x : ℕ),
      x ∈ s.handled → x ∈ ((runWrites f as s).1).handled := by
  intro as
  induction as with
  | nil => intro s x hx; simpa [runWrites] using hx
  | cons a as ih =>
    intro s x hx
    rw [runWrites]
    cases h : f a s with
    | mk s' o =>
      have hs' : x ∈ s'.handled := by
        have := hf a s x hx
        rw [h] at this
        exact this
      cases o with
      | none => exact ih s' x hs'
      | some e => exact hs'

/-! ### Body-force lemmas -/

theorem outputBodyForce_of_ne_zero (obj : CurrentDensityConstraint) (name : String)
    (s : Sink) (h : pyRound obj.currentDensity 10 ≠ 0) :
    outputBodyForce obj name s =
      ({ s with writes := s.writes ++
          [Write.bodyForce name "Current Density" (Value.num (pyRound obj.currentDensity 10))] },
        none) := by
  simp only [outputBodyForce, if_neg h]
  rfl

theorem outputBodyForce_handled (obj : CurrentDensityConstraint) (name : String)
    (s : Sink) : ((outputBodyForce obj name s).1).handled = s.handled := by
  simp only [outputBodyForce]
  split <;> rfl

theorem outputBodyForce_err (obj : CurrentDensityConstraint) (name : String)
    (s : Sink) (e : Error) (he : e ≠ Error.zeroSource) :
    (outputBodyForce obj name s).2 ≠ some e := by
  simp only [outputBodyForce]
  split <;> simp_all [eq_comm]

theorem runWrites_outputBodyForce_handled (obj : CurrentDensityConstraint)
    (l : List String) (t : Sink) (x : ℕ) (ht : x ∈ t.handled) :
    x ∈ ((runWrites (outputBodyForce obj) l t).1).handled :=
  runWrites_handled_mono _ (fun a u y hy => by
    rw [outputBodyForce_handled]; exact hy) l t x ht

theorem processCurrentDensity_handled_mono (total : ℕ) (bodies : List String)
    (obj : CurrentDensityConstraint) (s : Sink) (x : ℕ) (hx : x ∈ s.handled) :
    x ∈ ((processCurrentDensity total bodies obj s).1).handled := by
  cases href : obj.references with
  | cons r rest =>
    cases h : runWrites (outputBodyForce obj) r s with
    | mk s' o =>
      have hs' : x ∈ s'.handled := by
        have := runWrites_outputBodyForce_handled obj r s x hx
        rw [h] at this
        exact this
      cases o with
      | none =>
        simp only [processCurrentDensity, href, h]
        exact markHandled_handled_mono _ _ (markHandled_handled_mono _ _ hs')
      | some e =>
        simp only [processCurrentDensity, href, h]
        exact hs'
  | nil =>
    by_cases ht : total = 1
    · cases h : runWrites (outputBodyForce obj) bodies s with
      | mk s' o =>
        have hs' : x ∈ s'.handled := by
          have := runWrites_outputBodyForce_handled obj bodies s x hx
          rw [h] at this
          exact this
        cases o with
        | none =>
          simp only [processCurrentDensity, href, if_pos ht, h]
          exact markHandled_handled_mono _ _ hs'
        | some e =>
          simp only [processCurrentDensity, href, if_pos ht, h]
          exact hs'
    · simp only [processCurrentDensity, href, if_neg ht]
      exact hx

theorem processCurrentDensity_success_handled (total : ℕ) (bodies : List String)
    (obj : CurrentDensityConstraint) (s : Sink)
    (h : (processCurrentDensity total bodies obj s).2 = none) :
    obj.id ∈ ((processCurrentDensity total bodies obj s).1).handled := by
  cases href : obj.references with
  | cons r rest =>
    cases hr : runWrites (outputBodyForce obj) r s with
    | mk s' o =>
      cases o with
      | none =>
        simp only [processCurrentDensity, href, hr]
        exact markHandled_handled_mono _ _ (markHandled_handled_mem _ _)
      | some e =>
        simp [processCurrentDensity, href, hr] at h
  | nil =>
    by_cases ht : total = 1
    · cases hr : runWrites (outputBodyForce obj) bodies s with
      | mk s' o =>
        cases o with
        | none =>
          simp only [processCurrentDensity, href, if_pos ht, hr]
          exact markHandled_handled_mem _ _
        | some e =>
          simp [processCurrentDensity, href, if_pos ht, hr] at h
    · simp [processCurrentDensity, href, if_neg ht] at h

theorem processCurrentDensity_err (total : ℕ) (bodies : List String)
    (obj : CurrentDensityConstraint) (s : Sink) :
    (processCurrentDensity total bodies obj s).2 ≠ some Error.missingSource := by
  have hrw : ∀ (l : List String) (t : Sink),
      (runWrites (outputBodyForce obj) l t).2 ≠ some Error.missingSource :=
    runWrites_ne_error _ _ (fun a u => outputBodyForce_err obj a u _ (by simp))
  cases href : obj.references with
  | cons r rest =>
    cases hr : runWrites (outputBodyForce obj) r s with
    | mk s' o =>
      cases o with
      | none => simp [processCurrentDensity, href, hr]
      | some e =>
        have := hrw r s
        rw [hr] at this
        simp only [processCurrentDensity, href, hr]
        simpa using this
  | nil =>
    by_cases ht : total = 1
    · cases hr : runWrites (outputBodyForce obj) bodies s with
      | mk s' o =>
        cases o with
        | none => simp [processCurrentDensity, href, if_pos ht, hr]
        | some e =>
          have := hrw bodies s
          rw [hr] at this
          simp only [processCurrentDensity, href, if_pos ht, hr]
          simpa using this
    · simp [processCurrentDensity, href, if_neg ht]

theorem flatMap_singleton {α β : Type} (l : List α) (f : α → β) :
    l.flatMap (fun a => [f a]) = l.map f := by
  induction l with
  | nil => rfl
  | cons a as ih => simp [List.flatMap_cons, ih]

theorem runWrites_outputBodyForce_of_ne_zero (obj : CurrentDensityConstraint)
    (h : pyRound obj.currentDensity 10 ≠ 0) (l : List String) (t : Sink) :
    runWrites (outputBodyForce obj) l t =
      ({ t with writes := t.writes ++ l.map (fun name =>
          Write.bodyForce name "Current Density"
            (Value.num (pyRound obj.currentDensity 10))) }, none) := by
  have := runWrites_pure (outputBodyForce obj)
    (fun name => [Write.bodyForce name "Current Density"
        (Value.num (pyRound obj.currentDensity 10))])
    (fun a u => outputBodyForce_of_ne_zero obj a u h) l t
  rwa [flatMap_singleton] at this

theorem runWrites_processCD_success_handled (total : ℕ) (bodies : List String) :
    ∀ (cs : List CurrentDensityConstraint) (s : Sink),
      (runWrites (processCurrentDensity total bodies) cs s).2 = none →
      ∀ o ∈ cs, o.id ∈ ((runWrites (processCurrentDensity total bodies) cs s).1).handled := by
  intro cs
  induction cs with
  | nil => intro s h o ho; simp at ho
  | cons a as ih =>
    intro s h o ho
    rw [runWrites_cons] at h ⊢
    cases hp : processCurrentDensity total bodies a s with
    | mk s' oe =>
      simp only [hp] at h ⊢
      cases oe with
      | some e => simp at h
      | none =>
        rcases List.mem_cons.mp ho with h1 | h1
        · subst h1
          have ha : o.id ∈ s'.handled := by
            have hmem := processCurrentDensity_success_handled total bodies o s
              (by rw [hp])
            rw [hp] at hmem
            exact hmem
          exact runWrites_handled_mono _
            (fun b u x hx => processCurrentDensity_handled_mono total bodies b u x hx)
            as s' o.id ha
        · exact ih s' h o h1

/-- C1: if the only current-density constraint in the model has no reference
list, a body force is emitted for every body in `bodies` (broadcast); if the
model has more than one constraint, processing an unreferenced constraint
fails at once with the ambiguous-source error, so the whole resolution
fails. -/
theorem spec_C1 (obj : CurrentDensityConstraint) (bodies : List String) (s : Sink)
    (cds : List CurrentDensityConstraint) (href : obj.references = []) :
    (pyRound obj.currentDensity 10 ≠ 0 →
      (handleMagnetodynamic2DBodyForces [obj] bodies s).2 = none ∧
      ∀ name ∈ bodies,
        Write.bodyForce name "Current Density" (Value.num (pyRound obj.currentDensity 10))
          ∈ ((handleMagnetodynamic2DBodyForces [obj] bodies s).1).writes)
    ∧ (2 ≤ cds.length → obj ∈ cds →
        processCurrentDensity cds.length bodies obj s = (s, some Error.ambiguousSource) ∧
        ((handleMagnetodynamic2DBodyForces cds bodies s).2).isSome) := by
  constructor
  · intro h
    have hproc : processCurrentDensity 1 bodies obj s =
        (markHandled obj.id ({ s with writes := s.writes ++ bodies.map (fun name =>
            Write.bodyForce name "Current Density"
              (Value.num (pyRound obj.currentDensity 10))) }), none) := by
      simp only [processCurrentDensity, href, if_true]
      rw [runWrites_outputBodyForce_of_ne_zero obj h bodies s]
    have hall : handleMagnetodynamic2DBodyForces [obj] bodies s =
        (markHandled obj.id ({ s with writes := s.writes ++ bodies.map (fun name =>
            Write.bodyForce name "Current Density"
              (Value.num (pyRound obj.currentDensity 10))) }), none) := by
      simp only [handleMagnetodynamic2DBodyForces, List.length_singleton]
      rw [if_neg (by norm_num), runWrites_cons, hproc]
      rfl
    rw [hall]
    refine ⟨rfl, ?_⟩
    intro name hname
    rw [markHandled_writes]
    simp only [List.mem_append, List.mem_map]
    exact Or.inr ⟨name, hname, rfl⟩
  · intro hlen hmem
    have ht : cds.length ≠ 1 := by omega
    have hproc : ∀ t : Sink,
        processCurrentDensity cds.length bodies obj t = (t, some Error.ambiguousSource) := by
      intro t
      simp only [processCurrentDensity, href, if_neg ht]
    refine ⟨hproc s, ?_⟩
    have hlen0 : cds.length ≠ 0 := by omega
    simp only [handleMagnetodynamic2DBodyForces, if_neg hlen0]
    exact runWrites_fails (processCurrentDensity cds.length bodies) obj
      (fun t => by rw [hproc t]; rfl) cds s hmem

/-- Witness for C1: one unreferenced constraint of magnitude 5 over bodies
A, B, C broadcasts to each body; with two constraints in the model, the
unreferenced one fails as the ambiguous-source error. -/
theorem spec_C1_witness :
    Write.bodyForce "B" "Current Density" (Value.num 5)
      ∈ ((handleMagnetodynamic2DBodyForces [⟨0, [], 5⟩] ["A", "B", "C"] ⟨[], []⟩).1).writes ∧
    processCurrentDensity 2 ["A"] ⟨0, [], 5⟩ ⟨[], []⟩ =
      (⟨[], []⟩, some Error.ambiguousSource) := by
  have h5 : pyRound ((⟨0, [], 5⟩ : CurrentDensityConstraint).currentDensity) 10 = 5 := by
    norm_num [pyRound, pyRoundInt]
  have h := spec_C1 ⟨0, [], 5⟩ ["A", "B", "C"] ⟨[], []⟩ [⟨0, [], 5⟩, ⟨1, [], 5⟩] rfl
  constructor
  · have hm := (h.1 (by rw [h5]; norm_num)).2 "B" (by simp)
    rwa [h5] at hm
  · have h' := spec_C1 ⟨0, [], 5⟩ ["A"] ⟨[], []⟩ [⟨0, [], 5⟩, ⟨1, [], 5⟩] rfl
    exact (h'.2 (by simp) (by simp)).1

/-- C2: per (constraint, body) emission, the magnitude is rounded to 10
decimals; the zero-source error is raised exactly when the rounded magnitude
equals zero (leaving the sink untouched), otherwise the rounded value is
written as `Current Density`; in particular a magnitude of `1e-12` fails. -/
theorem spec_C2 (obj : CurrentDensityConstraint) (name : String) (s : Sink) :
    ((outputBodyForce obj name s).2 = some Error.zeroSource ↔
      pyRound obj.currentDensity 10 = 0)
    ∧ (pyRound obj.currentDensity 10 = 0 →
        outputBodyForce obj name s = (s, some Error.zeroSource))
    ∧ (pyRound obj.currentDensity 10 ≠ 0 →
        outputBodyForce obj name s =
          (s.write (Write.bodyForce name "Current Density"
              (Value.num (pyRound obj.currentDensity 10))), none))
    ∧ (obj.currentDensity = 1 / 10 ^ 12 →
        (outputBodyForce obj name s).2 = some Error.zeroSource) := by
  by_cases h0 : pyRound obj.currentDensity 10 = 0
  · have he : outputBodyForce obj name s = (s, some Error.zeroSource) := by
      simp only [outputBodyForce, if_pos h0]
    rw [he]
    exact ⟨by simp [h0], fun _ => rfl, fun h => absurd h0 h, fun _ => rfl⟩
  · have he := outputBodyForce_of_ne_zero obj name s h0
    rw [he]
    refine ⟨by simp [h0], fun h => absurd h h0, fun _ => rfl, ?_⟩
    intro hcd
    exfalso
    apply h0
    rw [hcd]
    norm_num [pyRound, pyRoundInt]

/-- Witness for C2: the magnitude `1e-12` rounds to zero at 10 decimals and
is rejected. -/
theorem spec_C2_witness :
    (outputBodyForce ⟨0, [], 1 / 10 ^ 12⟩ "A" ⟨[], []⟩).2 = some Error.zeroSource :=
  (spec_C2 ⟨0, [], 1 / 10 ^ 12⟩ "A" ⟨[], []⟩).2.2.2 rfl

/-- C7: a current-density constraint processed without an error is marked
handled (whichever branch handled it), every constraint of a successful
resolution ends up marked, and marking twice is idempotent: it raises
nothing, adds nothing, and emits no output. -/
theorem spec_C7 (total : ℕ) (bodies : List String) (obj : CurrentDensityConstraint)
    (cds : List CurrentDensityConstraint) (s t : Sink) (id : ℕ) :
    ((processCurrentDensity total bodies obj s).2 = none →
        obj.id ∈ ((processCurrentDensity total bodies obj s).1).handled)
    ∧ ((handleMagnetodynamic2DBodyForces cds bodies s).2 = none →
        ∀ o ∈ cds, o.id ∈ ((handleMagnetodynamic2DBodyForces cds bodies s).1).handled)
    ∧ markHandled id (markHandled id t) = markHandled id t
    ∧ (markHandled id t).writes = t.writes := by
  refine ⟨processCurrentDensity_success_handled total bodies obj s, ?_,
    markHandled_idem id t, markHandled_writes id t⟩
  by_cases hlen : cds.length = 0
  · have hc : cds = [] := List.length_eq_zero.mp hlen
    subst hc
    intro h o ho
    simp at ho
  · simp only [handleMagnetodynamic2DBodyForces, if_neg hlen]
    exact runWrites_processCD_success_handled cds.length bodies cds s

/-- Witness for C7: a referenced constraint processed without error is
marked handled. -/
theorem spec_C7_witness :
    0 ∈ ((processCurrentDensity 1 ["A"] ⟨0, [["B"]], 5⟩ ⟨[], []⟩).1).handled ∧
    markHandled 3 (markHandled 3 ⟨[], []⟩) = markHandled 3 ⟨[], []⟩ := by
  have h := spec_C7 1 ["A"] ⟨0, [["B"]], 5⟩ [] ⟨[], []⟩ ⟨[], []⟩ 3
  refine ⟨h.1 ?_, h.2.2.1⟩
  have h5 : pyRound ((⟨0, [["B"]], 5⟩ : CurrentDensityConstraint).currentDensity) 10 ≠ 0 := by
    norm_num [pyRound, pyRoundInt]
  simp only [processCurrentDensity,
    runWrites_outputBodyForce_of_ne_zero _ h5 ["B"] ⟨[], []⟩]

/-- C8: body-force resolution fails with the missing-source error exactly
when the model holds no current-density constraint, and then nothing has
been written. -/
theorem spec_C8 (cds : List CurrentDensityConstraint) (bodies : List String) (s : Sink) :
    ((handleMagnetodynamic2DBodyForces cds bodies s).2 = some Error.missingSource ↔
      cds = [])
    ∧ (cds = [] →
        handleMagnetodynamic2DBodyForces cds bodies s = (s, some Error.missingSource)) := by
  have hfwd : cds = [] →
      handleMagnetodynamic2DBodyForces cds bodies s = (s, some Error.missingSource) := by
    intro h
    subst h
    rfl
  refine ⟨⟨?_, fun h => by rw [hfwd h]⟩, hfwd⟩
  intro h
  by_contra hne
  have hlen : cds.length ≠ 0 := by simpa [List.length_eq_zero] using hne
  rw [handleMagnetodynamic2DBodyForces, if_neg hlen] at h
  exact runWrites_ne_error (processCurrentDensity cds.length bodies) Error.missingSource
    (fun a u => processCurrentDensity_err cds.length bodies a u) cds s h

/-- Witness for C8: with no constraint at all, resolution fails with the
missing-source error and an untouched sink. -/
theorem spec_C8_witness :
    handleMagnetodynamic2DBodyForces [] ["A"] ⟨[], []⟩ =
      (⟨[], []⟩, some Error.missingSource) :=
  (spec_C8 [] ["A"] ⟨[], []⟩).2 rfl

/-! ### Equation-handler lemmas and claims -/

theorem equationStep_of_not_zero (equation : Equation) (b : String) (s : Sink)
    (h : ¬(equation.isHarmonic = true ∧ equation.angularFrequency = 0)) :
    (if equation.isHarmonic = true ∧ equation.angularFrequency = 0 then
        (s, some Error.zeroFrequency)
      else
        let s := s.write (Write.equation b "Name" (Value.str equation.name))
        (s.write (Write.equation b "Angular Frequency" (Value.num equation.angularFrequency)),
          none)) =
      ({ s with writes := s.writes ++
          [Write.equation b "Name" (Value.str equation.name),
           Write.equation b "Angular Frequency" (Value.num equation.angularFrequency)] },
        none) := by
  rw [if_neg h]
  simp [Sink.write]

/-- C3: per body, a harmonic equation with zero angular frequency fails with
the zero-frequency error; an equation that is not harmonic, or whose
frequency check passes, fails on no body and writes `Name` and the numeric
`Angular Frequency` into the equation group of every body. -/
theorem spec_C3 (bodies : List String) (equation : Equation) (s : Sink)
    (hne : bodies ≠ []) :
    (equation.isHarmonic = true → equation.angularFrequency = 0 →
        (handleMagnetodynamic2DEquation bodies equation s).2 = some Error.zeroFrequency)
    ∧ (equation.isHarmonic = false →
        (handleMagnetodynamic2DEquation bodies equation s).2 = none)
    ∧ (¬(equation.isHarmonic = true ∧ equation.angularFrequency = 0) →
        handleMagnetodynamic2DEquation bodies equation s =
          ({ s with writes := s.writes ++ bodies.flatMap (fun b =>
              [Write.equation b "Name" (Value.str equation.name),
               Write.equation b "Angular Frequency"
                 (Value.num equation.angularFrequency)]) }, none)) := by
  have hok : ¬(equation.isHarmonic = true ∧ equation.angularFrequency = 0) →
      handleMagnetodynamic2DEquation bodies equation s =
        ({ s with writes := s.writes ++ bodies.flatMap (fun b =>
            [Write.equation b "Name" (Value.str equation.name),
             Write.equation b "Angular Frequency"
               (Value.num equation.angularFrequency)]) }, none) := by
    intro h
    exact runWrites_pure _ _ (fun b t => equationStep_of_not_zero equation b t h) bodies s
  refine ⟨?_, ?_, hok⟩
  · intro h1 h2
    cases bodies with
    | nil => exact absurd rfl hne
    | cons b bs =>
      have hpos : equation.isHarmonic = true ∧ equation.angularFrequency = 0 := ⟨h1, h2⟩
      simp only [handleMagnetodynamic2DEquation, runWrites_cons, if_pos hpos]
  · intro h1
    rw [hok (by simp [h1])]

/-- Witness for C3: a non-harmonic equation with zero frequency succeeds and
writes both directives for the single body. -/
theorem spec_C3_witness :
    (handleMagnetodynamic2DEquation ["A"]
        ⟨"eq", false, 0, false, false, false, true, false, false, false, false,
          true, false, false⟩ ⟨[], []⟩).2 = none := by
  have h := spec_C3 ["A"]
    ⟨"eq", false, 0, false, false, false, true, false, false, false, false,
      true, false, false⟩ ⟨[], []⟩ (by simp)
  exact h.2.1 rfl

/-- C10: a harmonic equation with zero angular frequency over a non-empty
body set fails on the very first body, leaving the sink exactly as it was:
no equation directive is written for any body. -/
theorem spec_C10 (bodies : List String) (equation : Equation) (s : Sink)
    (h1 : equation.isHarmonic = true) (h2 : equation.angularFrequency = 0)
    (hne : bodies ≠ []) :
    handleMagnetodynamic2DEquation bodies equation s = (s, some Error.zeroFrequency) := by
  cases bodies with
  | nil => exact absurd rfl hne
  | cons b bs =>
    have hpos : equation.isHarmonic = true ∧ equation.angularFrequency = 0 := ⟨h1, h2⟩
    simp only [handleMagnetodynamic2DEquation, runWrites_cons, if_pos hpos]

/-- Witness for C10: a harmonic equation with zero frequency over two bodies
fails immediately with an unchanged sink. -/
theorem spec_C10_witness :
    handleMagnetodynamic2DEquation ["A", "B"]
        ⟨"eq", true, 0, false, false, false, true, false, false, false, false,
          true, false, false⟩ ⟨[], []⟩ =
      (⟨[], []⟩, some Error.zeroFrequency) :=
  spec_C10 ["A", "B"]
    ⟨"eq", true, 0, false, false, false, true, false, false, false, false,
      true, false, false⟩ ⟨[], []⟩ rfl rfl (by simp)

/-! ### Material-resolver lemmas and claims -/

theorem checkBodiesHaveMaterial_of_missing (getBodyMaterial : String → Option String) :
    ∀ (bodies : List String), (∃ n ∈ bodies, getBodyMaterial n = none) →
      ∃ n, n ∈ bodies ∧ getBodyMaterial n = none ∧
        checkBodiesHaveMaterial getBodyMaterial bodies =
          some (Error.unassignedBody n) := by
  intro bodies
  induction bodies with
  | nil =>
    rintro ⟨n, hn, -⟩
    simp at hn
  | cons m ms ih =>
    rintro ⟨n, hn, hnone⟩
    by_cases hm : getBodyMaterial m = none
    · exact ⟨m, by simp, hm, by simp [checkBodiesHaveMaterial, hm]⟩
    · have hn' : n ∈ ms := by
        rcases List.mem_cons.mp hn with h | h
        · subst h; exact absurd hnone hm
        · exact h
      obtain ⟨k, hk1, hk2, hk3⟩ := ih ⟨n, hn', hnone⟩
      exact ⟨k, List.mem_cons_of_mem _ hk1, hk2,
        by simp [checkBodiesHaveMaterial, hm, hk3]⟩

theorem outputMaterial_no_ec (m : MaterialRecord) (name : String) (s : Sink)
    (h : m.electricalConductivity = none) :
    outputMaterial m name s = (s, some Error.missingConductivity) := by
  simp only [outputMaterial, h]

theorem outputMaterial_no_rp (m : MaterialRecord) (name : String) (s : Sink)
    (ec : ℚ) (hec : m.electricalConductivity = some ec)
    (h : m.relativePermeability = none) :
    outputMaterial m name s = (s, some Error.missingPermeability) := by
  simp only [outputMaterial, hec, h]

theorem outputMaterial_ok (m : MaterialRecord) (name : String) (s : Sink)
    (ec rp : ℚ) (hec : m.electricalConductivity = some ec)
    (hrp : m.relativePermeability = some rp) :
    outputMaterial m name s =
      ({ s with writes := s.writes ++
          ([Write.material name "Name" (Value.str m.name),
            Write.material name "Electric Conductivity" (Value.num (pyRound ec 10)),
            Write.material name "Relative Permeability" (Value.num rp)] ++
           (match m.relativePermittivity with
            | some rpt => [Write.material name "Relative Permittivity" (Value.num rpt)]
            | none => [])) }, none) := by
  cases hr : m.relativePermittivity with
  | some rpt => simp [outputMaterial, hec, hrp, hr, Sink.write]
  | none => simp [outputMaterial, hec, hrp, hr, Sink.write]

/-- C4: if any body of the input set has no associated material in the
model's body-to-material lookup, material resolution fails with the
unassigned-body error naming (the first) such body, with the sink exactly as
it was — the check precedes every material directive. -/
theorem spec_C4 (getBodyMaterial : String → Option String) (allBodies : List String)
    (materialObjects : List MaterialObject) (bodies : List String) (s : Sink)
    (h : ∃ n ∈ bodies, getBodyMaterial n = none) :
    ∃ n, n ∈ bodies ∧ getBodyMaterial n = none ∧
      handleMagnetodynamic2DMaterial getBodyMaterial allBodies materialObjects bodies s =
        (s, some (Error.unassignedBody n)) := by
  obtain ⟨n, h1, h2, h3⟩ := checkBodiesHaveMaterial_of_missing getBodyMaterial bodies h
  exact ⟨n, h1, h2, by simp [handleMagnetodynamic2DMaterial, h3]⟩

/-- Witness for C4: body B has no material, so resolution fails naming it and
writes nothing. -/
theorem spec_C4_witness :
    ∃ n, n ∈ ["A", "B"] ∧
      (fun m => if m = "A" then some "mat" else none) n = none ∧
      handleMagnetodynamic2DMaterial (fun m => if m = "A" then some "mat" else none)
          ["A", "B"] [] ["A", "B"] ⟨[], []⟩ =
        (⟨[], []⟩, some (Error.unassignedBody n)) :=
  spec_C4 (fun m => if m = "A" then some "mat" else none) ["A", "B"] [] ["A", "B"]
    ⟨[], []⟩ ⟨"B", by simp, by simp⟩

/-- C5: for a material assignment whose effective target set (its reference
list, or all bodies when unreferenced) meets the input bodies, a missing
`ElectricalConductivity` fails with the conductivity error and a missing
`RelativePermeability` with the permeability error, the sink untouched;
with both present the per-body emission writes, in order, `Name`, the
10-decimal-rounded `Electric Conductivity`, `Relative Permeability`, and
`Relative Permittivity` exactly when that optional property is present. -/
theorem spec_C5 (allBodies bodies : List String) (obj : MaterialObject)
    (name : String) (s : Sink) :
    (∀ targets : List String,
      targets = (match obj.references with
        | r :: _ => r
        | [] => allBodies).filter (fun n => n ∈ bodies) →
      (targets ≠ [] → obj.material.electricalConductivity = none →
        processMaterialObject allBodies bodies obj s =
          (s, some Error.missingConductivity))
      ∧ (∀ ec : ℚ, targets ≠ [] → obj.material.electricalConductivity = some ec →
          obj.material.relativePermeability = none →
          processMaterialObject allBodies bodies obj s =
            (s, some Error.missingPermeability)))
    ∧ (∀ ec rp : ℚ, obj.material.electricalConductivity = some ec →
        obj.material.relativePermeability = some rp →
        outputMaterial obj.material name s =
          ({ s with writes := s.writes ++
              ([Write.material name "Name" (Value.str obj.material.name),
                Write.material name "Electric Conductivity"
                  (Value.num (pyRound ec 10)),
                Write.material name "Relative Permeability" (Value.num rp)] ++
               (match obj.material.relativePermittivity with
                | some rpt =>
                    [Write.material name "Relative Permittivity" (Value.num rpt)]
                | none => [])) }, none)) := by
  constructor
  · intro targets htargets
    constructor
    · intro hne hec
      simp only [processMaterialObject]
      rw [← htargets]
      cases targets with
      | nil => exact absurd rfl hne
      | cons t ts =>
        rw [runWrites_cons, outputMaterial_no_ec _ _ _ hec]
    · intro ec hne hec hrp
      simp only [processMaterialObject]
      rw [← htargets]
      cases targets with
      | nil => exact absurd rfl hne
      | cons t ts =>
        rw [runWrites_cons, outputMaterial_no_rp _ _ _ ec hec hrp]
  · intro ec rp hec hrp
    exact outputMaterial_ok obj.material name s ec rp hec hrp

/-- Witness for C5: a material with conductivity 7 and permeability 1 and no
permittivity emits exactly the three directives in order; one lacking
conductivity fails; one lacking only permeability fails. -/
theorem spec_C5_witness :
    outputMaterial ⟨"steel", some 7, some 1, none⟩ "A" ⟨[], []⟩ =
      (⟨[Write.material "A" "Name" (Value.str "steel"),
         Write.material "A" "Electric Conductivity" (Value.num 7),
         Write.material "A" "Relative Permeability" (Value.num 1)], []⟩, none) ∧
    processMaterialObject ["A"] ["A"] ⟨[], ⟨"m", none, none, none⟩⟩ ⟨[], []⟩ =
      (⟨[], []⟩, some Error.missingConductivity) ∧
    processMaterialObject ["A"] ["A"] ⟨[], ⟨"m", some 7, none, none⟩⟩ ⟨[], []⟩ =
      (⟨[], []⟩, some Error.missingPermeability) := by
  have h7 : pyRound (7 : ℚ) 10 = 7 := by norm_num [pyRound, pyRoundInt]
  refine ⟨?_, ?_, ?_⟩
  · have h := (spec_C5 ["A"] ["A"] ⟨[], ⟨"steel", some 7, some 1, none⟩⟩ "A"
      ⟨[], []⟩).2 7 1 rfl rfl
    rw [h7] at h
    simpa using h
  · exact ((spec_C5 ["A"] ["A"] ⟨[], ⟨"m", none, none, none⟩⟩ "A" ⟨[], []⟩).1
      ["A"] (by simp)).1 (by simp) rfl
  · exact ((spec_C5 ["A"] ["A"] ⟨[], ⟨"m", some 7, none, none⟩⟩ "A" ⟨[], []⟩).1
      ["A"] (by simp)).2 7 (by simp) rfl rfl

/-! ### Boundary-condition lemmas and claim -/

theorem outputBoundary_eq (obj : PotentialConstraint) (name : String) (s : Sink) :
    outputBoundary obj name s =
      { s with writes := s.writes ++
          ((if obj.label ≠ "" then
              [Write.boundary name "! FreeCAD Name" (Value.str obj.label)]
            else []) ++
           (if obj.potentialEnabled = true then
              (match obj.potential with
               | some p => [Write.boundary name "Potential" (Value.num p)]
               | none => [])
            else []) ++
           (if obj.electricInfinity = true then
              [Write.boundary name "Infinity BC" (Value.bool true)]
            else [])) } := by
  by_cases hl : obj.label = "" <;>
    cases hpe : obj.potentialEnabled <;>
      cases hei : obj.electricInfinity <;>
        cases hp : obj.potential <;>
          simp [outputBoundary, hl, hpe, hei, hp, Sink.write]

/-- C9: a potential constraint without a body reference list is skipped
outright — nothing written, nothing raised, nothing marked handled; for a
referenced constraint and a referenced body, the label comment is emitted
exactly when the label is non-empty, `Potential` exactly when the enabled
flag is set and a potential value is attached, and `Infinity BC = true`
exactly when the infinity flag is set; the referenced constraint is marked
handled. -/
theorem spec_C9 (obj : PotentialConstraint) (name : String) (s : Sink) :
    (obj.references = [] → processBndCondition obj s = s)
    ∧ (outputBoundary obj name s).handled = s.handled
    ∧ (outputBoundary obj name s).writes = s.writes ++
        ((if obj.label ≠ "" then
            [Write.boundary name "! FreeCAD Name" (Value.str obj.label)]
          else []) ++
         (if obj.potentialEnabled = true then
            (match obj.potential with
             | some p => [Write.boundary name "Potential" (Value.num p)]
             | none => [])
          else []) ++
         (if obj.electricInfinity = true then
            [Write.boundary name "Infinity BC" (Value.bool true)]
          else []))
    ∧ (obj.references ≠ [] → obj.id ∈ (processBndCondition obj s).handled) := by
  refine ⟨?_, ?_, ?_, ?_⟩
  · intro h
    simp only [processBndCondition, h]
  · rw [outputBoundary_eq]
  · rw [outputBoundary_eq]
  · intro h
    cases href : obj.references with
    | nil => exact absurd href h
    | cons r rest =>
      simp only [processBndCondition, href]
      exact markHandled_handled_mem _ _

/-- Witness for C9: an unreferenced constraint is skipped with the sink
unchanged; a referenced constraint with label, enabled potential and
infinity flag emits all three directives for the referenced body and is
marked handled. -/
theorem spec_C9_witness :
    processBndCondition ⟨0, [], "L", true, some 3, true⟩ ⟨[], []⟩ = ⟨[], []⟩ ∧
    (outputBoundary ⟨1, [["F"]], "L", true, some 3, true⟩ "F" ⟨[], []⟩).writes =
      [Write.boundary "F" "! FreeCAD Name" (Value.str "L"),
       Write.boundary "F" "Potential" (Value.num 3),
       Write.boundary "F" "Infinity BC" (Value.bool true)] ∧
    1 ∈ (processBndCondition ⟨1, [["F"]], "L", true, some 3, true⟩ ⟨[], []⟩).handled := by
  refine ⟨(spec_C9 ⟨0, [], "L", true, some 3, true⟩ "F" ⟨[], []⟩).1 rfl, ?_,
    (spec_C9 ⟨1, [["F"]], "L", true, some 3, true⟩ "F" ⟨[], []⟩).2.2.2 (by simp)⟩
  have h := (spec_C9 ⟨1, [["F"]], "L", true, some 3, true⟩ "F" ⟨[], []⟩).2.2.1
  simpa using h

/-! ### Post-solver lemmas and claim -/

theorem ite_append_singleton {α : Type} (c : Prop) [Decidable c] (s : List α) (x : α) :
    (if c then s ++ [x] else s) = s ++ (if c then [x] else []) := by
  split <;> simp

theorem mem_ite_nil {α : Type} (a : α) (c : Prop) [Decidable c] (l : List α) :
    (a ∈ if c then l else []) ↔ c ∧ a ∈ l := by
  split <;> simp_all

/-- C6: in the post-solver section, each boolean calculation flag yields a
directive for its key exactly when it deviates from its implicit default:
`CalculateElementalFields` and `CalculateNodalFields` (default enabled) yield
one exactly when `false`, every other calculation flag exactly when `true`;
a flag at its default contributes no directive for its key. `base` is the
nonlinear-solver section the external writer provides, assumed free of the
calculation keys. -/
theorem spec_C6 (base : List (String × Value)) (equation : Equation)
    (hbase : ∀ p ∈ base, p.1 ∉ postCalcKeys) :
    ((∃ v, ("Calculate Current Density", v) ∈
        getMagnetodynamic2DSolverPost base equation) ↔
      equation.calculateCurrentDensity = true)
    ∧ ((∃ v, ("Calculate Electric Field", v) ∈
        getMagnetodynamic2DSolverPost base equation) ↔
      equation.calculateElectricField = true)
    ∧ ((∃ v, ("Calculate Elemental Fields", v) ∈
        getMagnetodynamic2DSolverPost base equation) ↔
      equation.calculateElementalFields = false)
    ∧ ((∃ v, ("Calculate Harmonic Loss", v) ∈
        getMagnetodynamic2DSolverPost base equation) ↔
      equation.calculateHarmonicLoss = true)
    ∧ ((∃ v, ("Calculate Joule Heating", v) ∈
        getMagnetodynamic2DSolverPost base equation) ↔
      equation.calculateJouleHeating = true)
    ∧ ((∃ v, ("Calculate Magnetic Field Strength", v) ∈
        getMagnetodynamic2DSolverPost base equation) ↔
      equation.calculateMagneticFieldStrength = true)
    ∧ ((∃ v, ("Calculate Maxwell Stress", v) ∈
        getMagnetodynamic2DSolverPost base equation) ↔
      equation.calculateMaxwellStress = true)
    ∧ ((∃ v, ("Calculate Nodal Fields", v) ∈
        getMagnetodynamic2DSolverPost base equation) ↔
      equation.calculateNodalFields = false)
    ∧ ((∃ v, ("Calculate Nodal Forces", v) ∈
        getMagnetodynamic2DSolverPost base equation) ↔
      equation.calculateNodalForces = true)
    ∧ ((∃ v, ("Calculate Nodal Heating", v) ∈
        getMagnetodynamic2DSolverPost base equation) ↔
      equation.calculateNodalHeating = true) := by
  have h01 : ∀ v : Value, ("Calculate Current Density", v) ∉ base :=
    fun v hv => hbase _ hv (by simp [postCalcKeys])
  have h02 : ∀ v : Value, ("Calculate Electric Field", v) ∉ base :=
    fun v hv => hbase _ hv (by simp [postCalcKeys])
  have h03 : ∀ v : Value, ("Calculate Elemental Fields", v) ∉ base :=
    fun v hv => hbase _ hv (by simp [postCalcKeys])
  have h04 : ∀ v : Value, ("Calculate Harmonic Loss", v) ∉ base :=
    fun v hv => hbase _ hv (by simp [postCalcKeys])
  have h05 : ∀ v : Value, ("Calculate Joule Heating", v) ∉ base :=
    fun v hv => hbase _ hv (by simp [postCalcKeys])
  have h06 : ∀ v : Value, ("Calculate Magnetic Field Strength", v) ∉ base :=
    fun v hv => hbase _ hv (by simp [postCalcKeys])
  have h07 : ∀ v : Value, ("Calculate Maxwell Stress", v) ∉ base :=
    fun v hv => hbase _ hv (by simp [postCalcKeys])
  have h08 : ∀ v : Value, ("Calculate Nodal Fields", v) ∉ base :=
    fun v hv => hbase _ hv (by simp [postCalcKeys])
  have h09 : ∀ v : Value, ("Calculate Nodal Forces", v) ∉ base :=
    fun v hv => hbase _ hv (by simp [postCalcKeys])
  have h10 : ∀ v : Value, ("Calculate Nodal Heating", v) ∉ base :=
    fun v hv => hbase _ hv (by simp [postCalcKeys])
  refine ⟨?_, ?_, ?_, ?_, ?_, ?_, ?_, ?_, ?_, ?_⟩ <;>
    · simp only [getMagnetodynamic2DSolverPost, ite_append_singleton]
      simp [mem_ite_nil, List.mem_append, h01, h02, h03, h04, h05, h06, h07,
        h08, h09, h10]

/-- Witness for C6: with `CalculateElementalFields = false` a directive for
that key appears; with `CalculateNodalHeating` left `false` (its default)
none appears for its key. -/
theorem spec_C6_witness :
    (∃ v, ("Calculate Elemental Fields", v) ∈
      getMagnetodynamic2DSolverPost []
        ⟨"e", false, 0, false, true, false, false, false, false, false, false,
          true, false, false⟩) ∧
    ¬ (∃ v, ("Calculate Nodal Heating", v) ∈
      getMagnetodynamic2DSolverPost []
        ⟨"e", false, 0, false, true, false, false, false, false, false, false,
          true, false, false⟩) := by
  have h := spec_C6 []
    ⟨"e", false, 0, false, true, false, false, false, false, false, false,
      true, false, false⟩ (by simp)
  exact ⟨h.2.2.1.mpr rfl,
    fun hc => absurd (h.2.2.2.2.2.2.2.2.2.mp hc) (by simp)⟩

end MgDyn2D
